import Mathlib

/-
Verification of the mqtt_websockets client engine (src/src/mqtt_wss_client.c)
against its natural-language specification.

The C file is shallowly embedded: the service routine, the connect driver,
publish/subscribe, disconnect and the constructor are translated into pure
Lean functions.  Calls into external collaborators (OpenSSL, the WebSocket
codec, the MQTT codec, poll(2), the allocator) are replaced by oracle values
carried in environment records: each oracle field stands for the outcome of
exactly one external call at the program point where the C code makes it.
Machine integers are modelled as Int/Nat (the values involved are tiny and
never overflow the C types in the ranges considered).
-/

namespace MqttWss

/-- Result of an OpenSSL SSL_read or SSL_write call after classification
through SSL_get_error: success with a positive byte count, want-read,
want-write, or any other (fatal) error. -/
inductive SSLRes
  | ok (n : Nat)
  | wantRead
  | wantWrite
  | fatal
deriving DecidableEq

/-- Result of ws_client_process. -/
inductive WSRes
  | ok
  | needMoreBytes
  | protocolError
deriving DecidableEq

/-- Return value of mqtt_wss_service. `okRet` stands for the value 0
(both the literal `return 0` on a pure poll timeout, line 576, and
MQTT_WSS_OK, line 639); `pollErr` is the literal -2 (line 554); the other
three are the error codes MQTT_WSS_ERR_CONN_DROP, MQTT_WSS_ERR_PROTO_WS and
MQTT_WSS_ERR_PROTO_MQTT of the (non-src) header. -/
inductive SvcRet
  | okRet
  | pollErr
  | connDrop
  | protoWS
  | protoMQTT
deriving DecidableEq

/-- Desired-events mask of the socket pollfd entry: the POLLIN and POLLOUT
bits of client->poll_fds[POLLFD_SOCKET].events. -/
structure EvMask where
  pollin : Bool
  pollout : Bool
deriving DecidableEq

/-- State of a struct mqtt_wss_client that the embedded operations read or
write.  `wsEstablished` models `client->ws_client->state == WS_ESTABLISHED`
as observed at the MQTT phase of an iteration; `mqttQueue` counts the
messages enqueued into the MQTT codec send queue (external codec state,
tracked only to express that publish does or does not enqueue). -/
structure Client where
  mqttConnected : Bool
  didntFinishWrite : Bool
  disconnecting : Bool
  wsEstablished : Bool
  sockEvents : EvMask
  sockfd : Int
  mqttQueue : Nat
deriving DecidableEq

/-- Oracle values for one iteration of mqtt_wss_service: the MQTT timing
inputs read by t_till_next_keepalive_ms, the outcome of poll(2), the linear
insert range size of ws buf_read, the SSL_read outcome, the
ws_client_process outcome, the mqtt_sync outcome (`mqttSyncOk`; whether the
PAL send path set mqtt_didnt_finish_write during the sync, `syncSetsDFW`;
whether the sync delivered a CONNACK ACCEPTED, `connackAccepted`), the
linear read range and total byte count of ws buf_write at the write phase,
the SSL_write outcome, and the pipe revents bit. -/
structure SvcEnv where
  lastSendSec : Int
  keepAliveSec : Int
  nowSec : Int
  pollFail : Bool
  pollReady : Bool
  readInsertSize : Nat
  sslRead : SSLRes
  wsProcess : WSRes
  mqttSyncOk : Bool
  syncSetsDFW : Bool
  connackAccepted : Bool
  writeLin : Nat
  writeTotal : Nat
  sslWrite : SSLRes
  pipeRevents : Bool
deriving DecidableEq

/-- Everything mqtt_wss_service produces in one call: the return code, the
updated client state, the timeout value actually passed to poll(2), whether
mqtt_ping was issued, whether the early `return 0` at line 576 was taken,
and the bytes remaining in ws buf_write when the call returns. -/
structure SvcOut where
  ret : SvcRet
  client : Client
  pollTimeout : Int
  pingSent : Bool
  earlyReturn : Bool
  writeRemaining : Nat
deriving DecidableEq

/-- SEC_TO_MSEC of the source (line 519). -/
def SEC_TO_MSEC : Int := 1000

/-- t_till_next_keepalive_ms (lines 520-525):
(time_of_last_send * 1000 + keep_alive * 750) - now * 1000.  The C computes
keep_alive * (1000 * 0.75) in double arithmetic; for integer keep_alive this
is exactly keep_alive * 750. -/
def t_till_next_keepalive_ms (timeOfLastSend keepAlive nowSec : Int) : Int :=
  (timeOfLastSend * SEC_TO_MSEC + keepAlive * 750) - nowSec * SEC_TO_MSEC

/-- set_socket_pollfds (lines 491-496): arm POLLOUT on want-write, POLLIN on
want-read, nothing otherwise. -/
def set_socket_pollfds (m : EvMask) (r : SSLRes) : EvMask :=
  let m1 := if r = SSLRes.wantWrite then { m with pollout := true } else m
  if r = SSLRes.wantRead then { m1 with pollin := true } else m1

/-- Read phase (lines 582-599).  `insertSize` is the linear insert range of
ws buf_read: 0 models a NULL range (phase skipped).  `none` models the
MQTT_WSS_ERR_CONN_DROP return. -/
def readPhase (insertSize : Nat) (r : SSLRes) (m : EvMask) : Option EvMask :=
  if insertSize = 0 then some m
  else
    match r with
    | SSLRes.ok _ => some m
    | SSLRes.wantRead => some (set_socket_pollfds m SSLRes.wantRead)
    | SSLRes.wantWrite => some (set_socket_pollfds m SSLRes.wantWrite)
    | SSLRes.fatal => none

/-- WebSocket process phase (lines 601-609).  `none` models the
MQTT_WSS_ERR_PROTO_WS return. -/
def wsPhase (r : WSRes) (m : EvMask) : Option EvMask :=
  match r with
  | WSRes.protocolError => none
  | WSRes.needMoreBytes => some { m with pollin := true }
  | WSRes.ok => some m

/-- handle_mqtt (lines 498-517).  When the WS session is established,
mqtt_sync runs: its PAL send path may set mqtt_didnt_finish_write
(`syncSetsDFW`) and its CONNACK callback may set mqtt_connected
(`connackAccepted`, via mws_connack_callback lines 92-117).  A sync error
clears mqtt_connected and reports failure (`true` in the second component);
otherwise a set didnt-finish-write flag is consumed and arms POLLOUT. -/
def handle_mqtt (st : Client) (syncOk syncSetsDFW connackAccepted : Bool) :
    Client × Bool :=
  if st.wsEstablished then
    let st1 := { st with
      didntFinishWrite := st.didntFinishWrite || syncSetsDFW,
      mqttConnected := st.mqttConnected || connackAccepted }
    if !syncOk then ({ st1 with mqttConnected := false }, true)
    else if st1.didntFinishWrite then
      ({ st1 with didntFinishWrite := false,
                  sockEvents := { st1.sockEvents with pollout := true } }, false)
    else (st1, false)
  else (st, false)

/-- Write phase (lines 614-634).  `lin` is the linear read range of ws
buf_write (0 models a NULL range), `total` the total bytes available in the
ring; on success `n` bytes are consumed.  `none` models the
MQTT_WSS_ERR_CONN_DROP return.  The second component of a success is the
byte count remaining in the ring. -/
def writePhase (lin total : Nat) (r : SSLRes) (st : Client) :
    Option (Client × Nat) :=
  if lin = 0 then some (st, total)
  else
    match r with
    | SSLRes.ok n => some (st, total - n)
    | SSLRes.wantRead =>
        some ({ st with sockEvents := set_socket_pollfds st.sockEvents SSLRes.wantRead }, total)
    | SSLRes.wantWrite =>
        some ({ st with sockEvents := set_socket_pollfds st.sockEvents SSLRes.wantWrite }, total)
    | SSLRes.fatal => none

/-- mqtt_wss_service (lines 527-640), one call.  The keep-alive clamp
(lines 542-550) shortens the timeout only when mqtt_connected; poll's
timeout argument is `timeout_ms >= 0 ? timeout_ms : -1` (line 552); a zero
poll result returns 0 early unless the clamp was taken, in which case
mqtt_ping is issued and the iteration continues; the socket desired-events
mask is then cleared (line 580) and rebuilt by the four phases. -/
def mqtt_wss_service (st : Client) (timeoutMs : Int) (env : SvcEnv) : SvcOut :=
  let till := t_till_next_keepalive_ms env.lastSendSec env.keepAliveSec env.nowSec
  let clamp : Bool := st.mqttConnected && decide (timeoutMs < 0 ∨ till ≤ timeoutMs)
  let effT : Int := if clamp then till else timeoutMs
  let pollTo : Int := if 0 ≤ effT then effT else -1
  if env.pollFail then
    ⟨SvcRet.pollErr, st, pollTo, false, false, env.writeTotal⟩
  else if !env.pollReady && !clamp then
    ⟨SvcRet.okRet, st, pollTo, false, true, env.writeTotal⟩
  else
    let pingSent : Bool := !env.pollReady && clamp
    let st0 : Client := { st with sockEvents := ⟨false, false⟩ }
    match readPhase env.readInsertSize env.sslRead st0.sockEvents with
    | none => ⟨SvcRet.connDrop, st0, pollTo, pingSent, false, env.writeTotal⟩
    | some m1 =>
      let st1 : Client := { st0 with sockEvents := m1 }
      match wsPhase env.wsProcess st1.sockEvents with
      | none => ⟨SvcRet.protoWS, st1, pollTo, pingSent, false, env.writeTotal⟩
      | some m2 =>
        let st2 : Client := { st1 with sockEvents := m2 }
        match handle_mqtt st2 env.mqttSyncOk env.syncSetsDFW env.connackAccepted with
        | (st3, true) => ⟨SvcRet.protoMQTT, st3, pollTo, pingSent, false, env.writeTotal⟩
        | (st3, false) =>
          match writePhase env.writeLin env.writeTotal env.sslWrite st3 with
          | none => ⟨SvcRet.connDrop, st3, pollTo, pingSent, false, env.writeTotal⟩
          | some (st4, rem) => ⟨SvcRet.okRet, st4, pollTo, pingSent, false, rem⟩

/-- Oracle values for one call of mqtt_wss_connect (lines 272-381): whether
the mqtt_params argument is NULL, whether gethostbyname succeeds, whether
the resolved address list is non-empty, whether socket() succeeds, whether
connect(2) succeeds, whether mqtt_connect returns MQTT_OK, and the per-call
service oracles consumed by the blocking wait loop (lines 373-378). -/
structure ConnectEnv where
  paramsNull : Bool
  resolveOk : Bool
  addrListNonEmpty : Bool
  socketOk : Bool
  tcpConnectOk : Bool
  mqttConnectOk : Bool
  loopEnvs : List SvcEnv
deriving DecidableEq

/-- Wait loop of mqtt_wss_connect (lines 373-378):
`while (!client->mqtt_connected) if (mqtt_wss_service(client, -1)) return 2;`.
The list supplies the service oracles of successive iterations; `none`
models exhausting the supplied trace with the loop still running. -/
def connect_wait_loop (st : Client) : List SvcEnv → Option (Int × Client)
  | [] => none
  | e :: rest =>
    if st.mqttConnected then some (0, st)
    else
      let out := mqtt_wss_service st (-1) e
      if out.ret ≠ SvcRet.okRet then some (2, out.client)
      else connect_wait_loop out.client rest

/-- mqtt_wss_connect (lines 272-381).  The state reset of lines 288-291 is
applied, then each fallible step either returns its error code or falls
through; socket-fd plumbing and the TLS handshake kickoff have no effect on
the return value and are not tracked.  `none` models a call still blocked in
the wait loop. -/
def mqtt_wss_connect (st : Client) (env : ConnectEnv) : Option (Int × Client) :=
  if env.paramsNull then some (-1, st)
  else
    let st1 : Client := { st with
      didntFinishWrite := false, mqttConnected := false, disconnecting := false }
    if !env.resolveOk then some (-1, st1)
    else if !env.addrListNonEmpty then some (-1, st1)
    else if !env.socketOk then some (-1, st1)
    else if !env.tcpConnectOk then some (-3, st1)
    else if !env.mqttConnectOk then some (1, st1)
    else connect_wait_loop st1 env.loopEnvs

/-- mqtt_wss_publish_pid (lines 672-698), with the external mqtt_publish_pid
call abstracted by `codecOk`: on MQTT_OK the message is enqueued into the
codec send queue and a wakeup byte is written (third component); otherwise
1 is returned with nothing enqueued.  The only guard is mqtt_connected. -/
def mqtt_wss_publish_pid (st : Client) (codecOk : Bool) : Int × Client × Bool :=
  if !st.mqttConnected then (1, st, false)
  else if !codecOk then (1, st, false)
  else (0, { st with mqttQueue := st.mqttQueue + 1 }, true)

/-- mqtt_wss_publish (lines 700-710): refuse when disconnecting, otherwise
delegate to mqtt_wss_publish_pid with a discarded packet id. -/
def mqtt_wss_publish (st : Client) (codecOk : Bool) : Int × Client × Bool :=
  if st.disconnecting then (1, st, false)
  else mqtt_wss_publish_pid st codecOk

/-- Oracle values for one call of mqtt_wss_disconnect (lines 428-474): the
timeouts and service oracles of the iterations actually executed by the
three mqtt_wss_service_all drain loops and by the final service loop, and
whether the mqtt_sync of line 446 set mqtt_didnt_finish_write through the
PAL send path. -/
structure DiscEnv where
  phase1 : List (Int × SvcEnv)
  discSyncSetsDFW : Bool
  phase2 : List (Int × SvcEnv)
  phase3 : List (Int × SvcEnv)
  finalLoop : List (Int × SvcEnv)
deriving DecidableEq

/-- Repeated mqtt_wss_service calls, each with its own timeout and oracle
values, keeping only the client state (used by the drain loops of
mqtt_wss_service_all and the final loop of mqtt_wss_disconnect). -/
def runServiceIters (st : Client) (l : List (Int × SvcEnv)) : Client :=
  l.foldl (fun s te => (mqtt_wss_service s te.1 te.2).client) st

/-- mqtt_wss_disconnect (lines 428-474): set mqtt_disconnecting, drain, send
MQTT DISCONNECT and run mqtt_sync (whose PAL path may set the
didnt-finish-write flag), drain, send the WS CONNECTION_CLOSE frame, drain,
run the final service loop, then close the socket and mark it unset (-1). -/
def mqtt_wss_disconnect (st : Client) (env : DiscEnv) : Client :=
  let s1 : Client := { st with disconnecting := true }
  let s2 := runServiceIters s1 env.phase1
  let s3 : Client := { s2 with
    didntFinishWrite := s2.didntFinishWrite || env.discSyncSetsDFW }
  let s4 := runServiceIters s3 env.phase2
  let s5 := runServiceIters s4 env.phase3
  let s6 := runServiceIters s5 env.finalLoop
  { s6 with sockfd := -1 }

/-- NSEC_PER_MSEC of the source (line 385). -/
def NSEC_PER_MSEC : Nat := 1000000
/-- USEC_PER_SEC of the source (line 384). -/
def USEC_PER_SEC : Nat := 1000000

/-- Deadline computation of mqtt_wss_service_all (line 415):
`exit_by = boottime_usec(client) + (timeout_ms * NSEC_PER_MSEC)`, where
boottime_usec returns microseconds. -/
def service_all_exit_by (nowUsec timeoutMs : Nat) : Nat :=
  nowUsec + timeoutMs * NSEC_PER_MSEC

/-- Per-phase budgets handed out by mqtt_wss_disconnect (lines 436, 447,
458, 471): each of the four phases receives timeout_ms / 4. -/
def disconnect_phase_budgets (timeoutMs : Int) : List Int :=
  [timeoutMs / 4, timeoutMs / 4, timeoutMs / 4, timeoutMs / 4]

/-- TOPIC_MAX of the source (line 131). -/
def TOPIC_MAX : Nat := 512

/-- Arguments of an inbound PUBLISH as handed to mqtt_rx_msg_callback
(struct mqtt_response_publish): the wire topic name bytes and their size,
the application message (pointer contents modelled as its byte list) and
size, and the QoS level. -/
structure RxPublish where
  topicName : List Nat
  topicNameSize : Nat
  appMessage : List Nat
  appMessageSize : Nat
  qosLevel : Nat
deriving DecidableEq

/-- Topic buffer built by mqtt_rx_msg_callback (lines 135-140):
`len = (topic_name_size < TOPIC_MAX - 1) ? topic_name_size : TOPIC_MAX - 1`,
memcpy of len bytes, then a NUL terminator. -/
def rx_topic (topicName : List Nat) (topicNameSize : Nat) : List Nat :=
  let len := if topicNameSize < TOPIC_MAX - 1 then topicNameSize else TOPIC_MAX - 1
  topicName.take len ++ [0]

/-- mqtt_rx_msg_callback (lines 132-147): the application message callback
receives the truncated NUL-terminated topic and the payload pointer, size
and QoS level unmodified. -/
def mqtt_rx_msg_callback (p : RxPublish) : List Nat × List Nat × Nat × Nat :=
  (rx_topic p.topicName p.topicNameSize, p.appMessage, p.appMessageSize, p.qosLevel)

/-- Modelled from the spec: MQTT_WSS_PUB_QOSMASK from the repository header
mqtt_wss_client.h, which is not under src/.  Spec section 6: publish flags
carry the QoS in the low two bits (mask QOSMASK). -/
def MQTT_WSS_PUB_QOSMASK : Nat := 3

/-- Modelled from the spec: MQTT_WSS_PUB_RETAIN from the repository header
mqtt_wss_client.h, which is not under src/.  Spec section 6: RETAIN at
bit 2. -/
def MQTT_WSS_PUB_RETAIN : Nat := 4

/-- Wire flags handed to mqtt_publish_pid (lines 682-684):
`(publish_flags & MQTT_WSS_PUB_QOSMASK) << 1`, OR the codec's
MQTT_PUBLISH_RETAIN constant (`retainBit`, an external MQTT codec value)
when the public RETAIN bit is set. -/
def publish_wire_flags (retainBit publishFlags : Nat) : Nat :=
  let f := (publishFlags &&& MQTT_WSS_PUB_QOSMASK) <<< 1
  if publishFlags &&& MQTT_WSS_PUB_RETAIN ≠ 0 then f ||| retainBit else f

/-- Wire flags handed to mqtt_connect (lines 353-356):
`(will_flags & MQTT_WSS_PUB_QOSMASK) << 3`, OR the codec's
MQTT_CONNECT_WILL_RETAIN (`willRetainBit`) when the public RETAIN bit is
set, OR the codec's MQTT_CONNECT_CLEAN_SESSION (`cleanSessionBit`); the two
codec constants are external MQTT codec values. -/
def connect_wire_flags (willRetainBit cleanSessionBit willFlags : Nat) : Nat :=
  let f := (willFlags &&& MQTT_WSS_PUB_QOSMASK) <<< 3
  let f1 := if willFlags &&& MQTT_WSS_PUB_RETAIN ≠ 0 then f ||| willRetainBit else f
  f1 ||| cleanSessionBit

/-- Resources acquired by mqtt_wss_new, in acquisition order: the log
context, the client struct, the ws_client, the notification pipe, the
mqtt_client struct, the MQTT send buffer, the MQTT receive buffer. -/
inductive Res
  | log
  | client
  | wsClient
  | pipe
  | mqttClient
  | sendBuf
  | recvBuf
deriving DecidableEq

/-- Oracle values for mqtt_wss_new (lines 155-242): success of each
allocation and of mqtt_init. -/
structure NewEnv where
  logOk : Bool
  clientAllocOk : Bool
  wsClientOk : Bool
  pipeOk : Bool
  mqttClientAllocOk : Bool
  sendBufOk : Bool
  recvBufOk : Bool
  mqttInitOk : Bool
deriving DecidableEq

/-- mqtt_wss_new (lines 155-242): first component is whether a (non-NULL)
client is returned, second is the list of resources released on the way
out, in release order.  The check after the receive-buffer allocation
(line 205) tests mqtt_send_buf, exactly as the source does, so a failed
receive-buffer allocation does not branch to the unwind path. -/
def mqtt_wss_new (env : NewEnv) : Bool × List Res :=
  if !env.logOk then (false, [])
  else if !env.clientAllocOk then (false, [Res.log])
  else if !env.wsClientOk then (false, [Res.client, Res.log])
  else if !env.pipeOk then (false, [Res.wsClient, Res.client, Res.log])
  else if !env.mqttClientAllocOk then
    (false, [Res.pipe, Res.wsClient, Res.client, Res.log])
  else if !env.sendBufOk then
    (false, [Res.mqttClient, Res.pipe, Res.wsClient, Res.client, Res.log])
  else if !env.sendBufOk then
    (false, [Res.sendBuf, Res.mqttClient, Res.pipe, Res.wsClient, Res.client, Res.log])
  else if !env.mqttInitOk then
    (false, [Res.recvBuf, Res.sendBuf, Res.mqttClient, Res.pipe, Res.wsClient,
             Res.client, Res.log])
  else (true, [])

/-- Effective poll timeout as the specification words it (spec sections 4.3
and the C2 claim): the minimum of the caller's timeout (negative meaning
infinite) and the milliseconds until the next keep-alive. -/
def spec_effective_timeout (timeoutMs till : Int) : Int :=
  if timeoutMs < 0 then till else min timeoutMs till

/-- Keep-alive clamp decision of mqtt_wss_service (line 544): taken exactly
when mqtt_connected and the caller timeout is negative or at least the time
till the next keep-alive. -/
def svc_clamp (st : Client) (timeoutMs : Int) (env : SvcEnv) : Bool :=
  st.mqttConnected && decide (timeoutMs < 0 ∨
    t_till_next_keepalive_ms env.lastSendSec env.keepAliveSec env.nowSec ≤ timeoutMs)

/-- Effective timeout of mqtt_wss_service after the keep-alive clamp
(line 548). -/
def svc_effT (st : Client) (timeoutMs : Int) (env : SvcEnv) : Int :=
  if svc_clamp st timeoutMs env then
    t_till_next_keepalive_ms env.lastSendSec env.keepAliveSec env.nowSec
  else timeoutMs

/-- Idle connected client used as a concrete test state: connected, WS
session established, no pending partial write, nothing armed. -/
def idleClient : Client := ⟨true, false, false, true, ⟨false, false⟩, 5, 0⟩

/-- Fresh client with every bit clear, used as a concrete test state. -/
def freshClient : Client := ⟨false, false, false, false, ⟨false, false⟩, 0, 0⟩

/-- Service oracles for the C1 counterexample: socket readable, the TLS
read wants more data, the WS write ring holds 2 bytes of which 1 byte is
linearly readable and the TLS write succeeds for that 1 byte, keep-alive
far away (keep_alive 400 s, nothing sent yet, now = 0). -/
def c1Env : SvcEnv :=
  ⟨0, 400, 0, false, true, 1, SSLRes.wantRead, WSRes.ok, true, false, false,
   1, 2, SSLRes.ok 1, false⟩

/-- Service oracles for the C1 witness: read phase classifies want-write. -/
def c1wEnv : SvcEnv :=
  ⟨0, 400, 0, false, true, 1, SSLRes.wantWrite, WSRes.ok, true, false, false,
   0, 0, SSLRes.ok 1, false⟩

/-- Service oracles for the C2 counterexample: keep-alive due in 500 ms
(last send at 0 s, keep_alive 2 s, now 1 s), no readiness, no poll error. -/
def c2Env : SvcEnv :=
  ⟨0, 2, 1, false, false, 1, SSLRes.wantRead, WSRes.ok, true, false, false,
   0, 0, SSLRes.ok 1, false⟩

/-- Service oracles for the C6 counterexample: keep-alive overdue by 500 ms
(last send at 0 s, keep_alive 2 s, now 2 s), no readiness, no poll error. -/
def c6Env : SvcEnv :=
  ⟨0, 2, 2, false, false, 1, SSLRes.wantRead, WSRes.ok, true, false, false,
   0, 0, SSLRes.ok 1, false⟩

/-- Connect oracles for the C4 counterexample: a NULL mqtt_params argument
while resolution, address list, socket creation and everything else would
succeed. -/
def c4Env : ConnectEnv := ⟨true, true, true, true, true, true, []⟩

/-- Connect oracles for the C4 witness: every precheck succeeds and the
single wait-loop iteration fails in poll, so connect returns 2. -/
def c4wEnv : ConnectEnv :=
  ⟨false, true, true, true, true, true,
   [⟨0, 2, 1, true, false, 0, SSLRes.ok 1, WSRes.ok, true, false, false,
     0, 0, SSLRes.ok 1, false⟩]⟩

/-- Allocation oracles for the C7 failing input: every allocation succeeds
except the MQTT receive buffer, and mqtt_init succeeds. -/
def c7Env : NewEnv := ⟨true, true, true, true, true, true, false, true⟩

/-- Allocation oracles exercising a reachable unwind path of mqtt_wss_new:
the MQTT send buffer allocation fails. -/
def c7SendFailEnv : NewEnv := ⟨true, true, true, true, true, false, true, true⟩

/-- Concrete inbound PUBLISH for the C10 witness. -/
def c10Publish : RxPublish := ⟨[7, 8, 9], 2, [1, 2, 3], 3, 1⟩

/-- Connected client that is already disconnecting, for the C9 witness. -/
def c9Client : Client := ⟨true, false, true, true, ⟨false, false⟩, 5, 0⟩

/-- handle_mqtt never touches the disconnecting bit. -/
theorem handle_mqtt_disconnecting (st : Client) (a b c : Bool) :
    ((handle_mqtt st a b c).1).disconnecting = st.disconnecting := by
  unfold handle_mqtt
  dsimp only
  split
  · split
    · rfl
    · split <;> rfl
  · rfl

/-- writePhase never touches the disconnecting bit. -/
theorem writePhase_disconnecting (lin total : Nat) (r : SSLRes) (st st' : Client)
    (rem : Nat) (h : writePhase lin total r st = some (st', rem)) :
    st'.disconnecting = st.disconnecting := by
  unfold writePhase at h
  split at h
  · simp only [Option.some.injEq, Prod.mk.injEq] at h
    rw [← h.1]
  · cases r with
    | ok n =>
      simp only [Option.some.injEq, Prod.mk.injEq] at h
      rw [← h.1]
    | wantRead =>
      simp only [Option.some.injEq, Prod.mk.injEq] at h
      rw [← h.1]
    | wantWrite =>
      simp only [Option.some.injEq, Prod.mk.injEq] at h
      rw [← h.1]
    | fatal => exact Option.noConfusion h

/-- mqtt_wss_service never touches the disconnecting bit. -/
theorem mqtt_wss_service_disconnecting (st : Client) (t : Int) (env : SvcEnv) :
    ((mqtt_wss_service st t env).client).disconnecting = st.disconnecting := by
  unfold mqtt_wss_service
  dsimp only
  split
  · rfl
  · split
    · rfl
    · split
      · rfl
      · rename_i m1 heq1
        split
        · rfl
        · rename_i m2 heq2
          split
          · rename_i st3 heq3
            have hf := handle_mqtt_disconnecting { st with sockEvents := m2 }
              env.mqttSyncOk env.syncSetsDFW env.connackAccepted
            rw [heq3] at hf
            exact hf
          · rename_i st3 heq3
            have hf := handle_mqtt_disconnecting { st with sockEvents := m2 }
              env.mqttSyncOk env.syncSetsDFW env.connackAccepted
            rw [heq3] at hf
            split
            · exact hf
            · rename_i st4 rem heq4
              have hw := writePhase_disconnecting env.writeLin env.writeTotal
                env.sslWrite st3 st4 rem heq4
              exact hw.trans hf

/-- runServiceIters never touches the disconnecting bit. -/
theorem runServiceIters_disconnecting (l : List (Int × SvcEnv)) (st : Client) :
    (runServiceIters st l).disconnecting = st.disconnecting := by
  induction l generalizing st with
  | nil => rfl
  | cons te rest ih =>
    simp only [runServiceIters, List.foldl_cons]
    have h1 := mqtt_wss_service_disconnecting st te.1 te.2
    have h2 := ih ((mqtt_wss_service st te.1 te.2).client)
    simp only [runServiceIters] at h2
    exact h2.trans h1

/-- POLLOUT after the read phase: armed exactly when it was armed before or
the phase ran and classified want-write. -/
theorem readPhase_pollout (i : Nat) (r : SSLRes) (m m' : EvMask)
    (h : readPhase i r m = some m') :
    m'.pollout = (m.pollout || (decide (i ≠ 0) && decide (r = SSLRes.wantWrite))) := by
  unfold readPhase at h
  split at h
  · rename_i h0
    simp only [Option.some.injEq] at h
    subst h
    simp [h0]
  · rename_i h0
    cases r with
    | ok n =>
      simp only [Option.some.injEq] at h
      subst h
      simp
    | wantRead =>
      simp only [Option.some.injEq] at h
      subst h
      simp [set_socket_pollfds]
    | wantWrite =>
      simp only [Option.some.injEq] at h
      subst h
      simp [set_socket_pollfds]
      exact Or.inr h0
    | fatal => exact Option.noConfusion h

/-- POLLOUT is untouched by the WebSocket process phase. -/
theorem wsPhase_pollout (r : WSRes) (m m' : EvMask) (h : wsPhase r m = some m') :
    m'.pollout = m.pollout := by
  unfold wsPhase at h
  cases r with
  | protocolError => exact Option.noConfusion h
  | needMoreBytes =>
    simp only [Option.some.injEq] at h
    subst h
    rfl
  | ok =>
    simp only [Option.some.injEq] at h
    subst h
    rfl

/-- POLLOUT after a successful MQTT phase: armed exactly when it was armed
before or the WS session is established and the didnt-finish-write flag was
observed set (either carried in or set by the sync just run). -/
theorem handle_mqtt_pollout (st st' : Client) (a b c : Bool)
    (h : handle_mqtt st a b c = (st', false)) :
    st'.sockEvents.pollout =
      (st.sockEvents.pollout ||
        (st.wsEstablished && (st.didntFinishWrite || b))) := by
  unfold handle_mqtt at h
  dsimp only at h
  split at h
  · rename_i hest
    split at h
    · exact absurd (congrArg Prod.snd h) (by simp)
    · rename_i hsync
      split at h
      · rename_i hdfw
        simp only [Prod.mk.injEq] at h
        rw [← h.1]
        simp [hest, hdfw]
      · rename_i hdfw
        simp only [Prod.mk.injEq] at h
        rw [← h.1]
        simp only [Bool.not_eq_true] at hdfw
        simp [hest, hdfw]
  · rename_i hest
    simp only [Prod.mk.injEq] at h
    rw [← h.1]
    simp only [Bool.not_eq_true] at hest
    simp [hest]

/-- POLLOUT after the write phase: armed exactly when it was armed before
or the phase ran and classified want-write. -/
theorem writePhase_pollout (lin total : Nat) (r : SSLRes) (st st' : Client)
    (rem : Nat) (h : writePhase lin total r st = some (st', rem)) :
    st'.sockEvents.pollout =
      (st.sockEvents.pollout || (decide (lin ≠ 0) && decide (r = SSLRes.wantWrite))) := by
  unfold writePhase at h
  split at h
  · rename_i h0
    simp only [Option.some.injEq, Prod.mk.injEq] at h
    rw [← h.1]
    simp [h0]
  · rename_i h0
    cases r with
    | ok n =>
      simp only [Option.some.injEq, Prod.mk.injEq] at h
      rw [← h.1]
      simp
    | wantRead =>
      simp only [Option.some.injEq, Prod.mk.injEq] at h
      rw [← h.1]
      simp [set_socket_pollfds]
    | wantWrite =>
      simp only [Option.some.injEq, Prod.mk.injEq] at h
      rw [← h.1]
      simp [set_socket_pollfds]
      exact Or.inr h0
    | fatal => exact Option.noConfusion h

/-- Timeout actually passed to poll by one service call. -/
theorem mqtt_wss_service_pollTimeout (st : Client) (t : Int) (env : SvcEnv) :
    (mqtt_wss_service st t env).pollTimeout =
      (if 0 ≤ svc_effT st t env then svc_effT st t env else -1) := by
  unfold mqtt_wss_service svc_effT svc_clamp
  dsimp only
  repeat' split
  all_goals rfl

/-- mqtt_ping is issued exactly when poll succeeds with zero events and the
keep-alive clamp was taken. -/
theorem mqtt_wss_service_pingSent (st : Client) (t : Int) (env : SvcEnv) :
    (mqtt_wss_service st t env).pingSent =
      (!env.pollFail && (!env.pollReady && svc_clamp st t env)) := by
  unfold mqtt_wss_service svc_clamp
  dsimp only
  split
  · rename_i h1
    simp [h1]
  · rename_i h1
    simp only [Bool.not_eq_true] at h1
    split
    · rename_i h2
      simp only [Bool.and_eq_true, Bool.not_eq_true'] at h2
      rw [h2.1, h2.2]
      simp
    · repeat' split
      all_goals simp [h1]

/-- The early `return 0` is taken exactly when poll succeeds with zero
events and the keep-alive clamp was not taken. -/
theorem mqtt_wss_service_earlyReturn (st : Client) (t : Int) (env : SvcEnv) :
    (mqtt_wss_service st t env).earlyReturn =
      (!env.pollFail && (!env.pollReady && !svc_clamp st t env)) := by
  unfold mqtt_wss_service svc_clamp
  dsimp only
  split
  · rename_i h1
    simp [h1]
  · rename_i h1
    simp only [Bool.not_eq_true] at h1
    split
    · rename_i h2
      rw [h2]
      simp [h1]
    · rename_i h2
      simp only [Bool.not_eq_true] at h2
      repeat' split
      all_goals (rw [h2]; simp)

/-- With mqtt_connected set, the clamped effective timeout agrees with the
specification's minimum (negative caller timeout meaning infinite). -/
theorem svc_effT_eq_spec (st : Client) (t : Int) (env : SvcEnv)
    (hc : st.mqttConnected = true) :
    svc_effT st t env =
      spec_effective_timeout t
        (t_till_next_keepalive_ms env.lastSendSec env.keepAliveSec env.nowSec) := by
  unfold svc_effT svc_clamp spec_effective_timeout
  rw [hc]
  by_cases h1 : t < 0
  · simp [h1]
  · by_cases h2 : t_till_next_keepalive_ms env.lastSendSec env.keepAliveSec env.nowSec ≤ t
    · simp [h1, h2, min_eq_right h2]
    · have h3 : t ≤ t_till_next_keepalive_ms env.lastSendSec env.keepAliveSec env.nowSec := by
        omega
      simp [h1, h2, min_eq_left h3]

/-- The connect wait loop only ever returns 0 (connected observed) or 2
(service returned non-zero). -/
theorem connect_wait_loop_result (l : List SvcEnv) (st : Client) (r : Int)
    (st' : Client) (h : connect_wait_loop st l = some (r, st')) :
    r = 0 ∨ r = 2 := by
  induction l generalizing st with
  | nil => exact Option.noConfusion h
  | cons e rest ih =>
    unfold connect_wait_loop at h
    split at h
    · simp only [Option.some.injEq, Prod.mk.injEq] at h
      exact Or.inl h.1.symm
    · dsimp only at h
      split at h
      · simp only [Option.some.injEq, Prod.mk.injEq] at h
        exact Or.inr h.1.symm
      · exact ih _ h

/-- mqtt_wss_disconnect leaves the socket unset and the disconnecting bit
held. -/
theorem mqtt_wss_disconnect_flags (st : Client) (env : DiscEnv) :
    (mqtt_wss_disconnect st env).sockfd = -1 ∧
    (mqtt_wss_disconnect st env).disconnecting = true := by
  unfold mqtt_wss_disconnect
  dsimp only
  refine ⟨rfl, ?_⟩
  simp [runServiceIters_disconnecting]

/-- C3: the drain-phase deadline of mqtt_wss_service_all at the failing
input.  disconnect with a 4000 ms budget hands each phase 1000 ms, but the
deadline computed for a phase entered at boot time 0 µs is 10^9 µs
(1000 s) instead of 1000 ms = 10^6 µs: NSEC_PER_MSEC is applied to the
microsecond boottime clock. -/
theorem C3_deadline_unit_bug :
    disconnect_phase_budgets 4000 = [1000, 1000, 1000, 1000] ∧
    service_all_exit_by 0 1000 = 1000000000 ∧
    1000 * 1000 = 1000000 ∧
    (1000000000 : Nat) ≠ 1000 * 1000 := by
  decide

/-- C5: for qos in {0,1,2} and retain in {0,1} packed as the public flags
(QoS in the low two bits, RETAIN at bit 2), the codec wire flags are
(qos << 1) OR the retain bit for publish, and (qos << 3) OR the
will-retain bit OR clean-session for connect, whatever the values of the
external codec constants. -/
theorem C5_wire_flag_encoding
    (retainBit willRetainBit cleanSessionBit qos retain : Nat)
    (hq : qos < 3) (hr : retain < 2) :
    publish_wire_flags retainBit (qos ||| (retain <<< 2)) =
      ((qos <<< 1) ||| (if retain = 1 then retainBit else 0)) ∧
    connect_wire_flags willRetainBit cleanSessionBit (qos ||| (retain <<< 2)) =
      (((qos <<< 3) ||| (if retain = 1 then willRetainBit else 0)) |||
        cleanSessionBit) := by
  interval_cases qos <;> interval_cases retain <;>
    constructor <;>
    simp [publish_wire_flags, connect_wire_flags, MQTT_WSS_PUB_QOSMASK,
      MQTT_WSS_PUB_RETAIN,
      show (0:Nat) &&& 3 = 0 by decide, show (4:Nat) &&& 3 = 0 by decide,
      show (1:Nat) &&& 3 = 1 by decide, show (5:Nat) &&& 3 = 1 by decide,
      show (2:Nat) &&& 3 = 2 by decide, show (6:Nat) &&& 3 = 2 by decide,
      show (0:Nat) &&& 4 = 0 by decide, show (1:Nat) &&& 4 = 0 by decide,
      show (2:Nat) &&& 4 = 0 by decide, show (4:Nat) &&& 4 = 4 by decide,
      show (5:Nat) &&& 4 = 4 by decide, show (6:Nat) &&& 4 = 4 by decide]

/-- C5 witness at qos 1, retain 1 and concrete codec constant values. -/
theorem C5_wire_flag_encoding_witness :
    publish_wire_flags 1 (1 ||| (1 <<< 2)) =
      ((1 <<< 1) ||| (if 1 = 1 then 1 else 0)) :=
  (C5_wire_flag_encoding 1 32 2 1 1 (by decide) (by decide)).1

/-- C7: at the failing input where only the MQTT receive-buffer allocation
fails, mqtt_wss_new returns a non-NULL client and releases nothing (the
NULL check after that malloc tests mqtt_send_buf, line 205); on the
reachable unwind paths, shown here for a send-buffer failure, the releases
are in exact reverse order of acquisition. -/
theorem C7_new_unwind_divergence :
    c7Env.recvBufOk = false ∧
    mqtt_wss_new c7Env = (true, []) ∧
    mqtt_wss_new c7SendFailEnv =
      (false, [Res.mqttClient, Res.pipe, Res.wsClient, Res.client, Res.log]) := by
  decide

/-- C8: after mqtt_wss_disconnect returns, the socket descriptor is unset
(-1) and any subsequent mqtt_wss_publish on the same client returns 1 with
the state untouched (nothing enqueued, no wakeup), whatever the codec
would have answered. -/
theorem C8_disconnect_unsets_socket_blocks_publish (st : Client)
    (env : DiscEnv) (codecOk : Bool) :
    (mqtt_wss_disconnect st env).sockfd = -1 ∧
    mqtt_wss_publish (mqtt_wss_disconnect st env) codecOk =
      (1, mqtt_wss_disconnect st env, false) := by
  obtain ⟨h1, h2⟩ := mqtt_wss_disconnect_flags st env
  refine ⟨h1, ?_⟩
  unfold mqtt_wss_publish
  rw [h2]
  simp

/-- C9: with mqtt_connected and mqtt_disconnecting both set, a direct
mqtt_wss_publish_pid call still enqueues the message and writes the wakeup
byte, returning 0 on codec success, while the mqtt_wss_publish wrapper
refuses with 1: the disconnecting guard lives only in the wrapper. -/
theorem C9_publish_pid_skips_disconnect_guard (st : Client)
    (hc : st.mqttConnected = true) (hd : st.disconnecting = true) :
    mqtt_wss_publish_pid st true =
      (0, { st with mqttQueue := st.mqttQueue + 1 }, true) ∧
    mqtt_wss_publish st true = (1, st, false) := by
  unfold mqtt_wss_publish mqtt_wss_publish_pid
  rw [hc, hd]
  simp

/-- C9 witness at a concrete connected, disconnecting client. -/
theorem C9_publish_pid_skips_disconnect_guard_witness :
    mqtt_wss_publish_pid c9Client true =
      (0, { c9Client with mqttQueue := c9Client.mqttQueue + 1 }, true) ∧
    mqtt_wss_publish c9Client true = (1, c9Client, false) :=
  C9_publish_pid_skips_disconnect_guard c9Client rfl rfl

/-- C10: the application message callback receives the first
min(topic_name_size, 511) topic bytes followed by a NUL terminator (topics
of 512 bytes or more are thus truncated to 511), and the payload, payload
size and QoS level unmodified. -/
theorem C10_topic_truncation (p : RxPublish)
    (h : p.topicNameSize ≤ p.topicName.length) :
    mqtt_rx_msg_callback p =
      (p.topicName.take (min p.topicNameSize 511) ++ [0],
       p.appMessage, p.appMessageSize, p.qosLevel) := by
  unfold mqtt_rx_msg_callback rx_topic TOPIC_MAX
  have hlen : (if p.topicNameSize < 512 - 1 then p.topicNameSize else 512 - 1) =
      min p.topicNameSize 511 := by
    rw [Nat.min_def]
    split <;> split <;> omega
  rw [hlen]

/-- C10 witness at a concrete short topic. -/
theorem C10_topic_truncation_witness :
    mqtt_rx_msg_callback c10Publish =
      (c10Publish.topicName.take (min c10Publish.topicNameSize 511) ++ [0],
       c10Publish.appMessage, c10Publish.appMessageSize, c10Publish.qosLevel) :=
  C10_topic_truncation c10Publish (by decide)

/-- C1 (amended): for every service iteration that returns OK after running
the I/O phases (i.e. not through the early poll-timeout return), the socket
desired-events mask contains POLLOUT exactly when the read-phase TLS call
classified want-write, or the write-phase TLS call classified want-write,
or the didnt-finish-write flag was observed set in the MQTT phase;
write-ring occupancy by itself does not arm POLLOUT. -/
theorem C1_pollout_arming (st : Client) (t : Int) (env : SvcEnv)
    (hok : (mqtt_wss_service st t env).ret = SvcRet.okRet)
    (hearly : (mqtt_wss_service st t env).earlyReturn = false) :
    ((mqtt_wss_service st t env).client.sockEvents.pollout = true ↔
      ((env.readInsertSize ≠ 0 ∧ env.sslRead = SSLRes.wantWrite) ∨
       (env.writeLin ≠ 0 ∧ env.sslWrite = SSLRes.wantWrite) ∨
       (st.wsEstablished = true ∧
         (st.didntFinishWrite = true ∨ env.syncSetsDFW = true)))) := by
  revert hok hearly
  unfold mqtt_wss_service
  dsimp only
  split
  · intro hok _
    exact absurd hok (by simp)
  · split
    · intro _ hearly
      exact absurd hearly (by simp)
    · split
      · intro hok _
        exact absurd hok (by simp)
      · rename_i m1 hr
        split
        · intro hok _
          exact absurd hok (by simp)
        · rename_i m2 hw
          split
          · intro hok _
            exact absurd hok (by simp)
          · rename_i st3 hm
            split
            · intro hok _
              exact absurd hok (by simp)
            · rename_i st4 rem hwp
              intro _ _
              have h1 := readPhase_pollout _ _ _ _ hr
              have h2 := wsPhase_pollout _ _ _ hw
              have h3 := handle_mqtt_pollout _ _ _ _ _ hm
              have h4 := writePhase_pollout _ _ _ _ _ _ hwp
              dsimp only
              rw [h4, h3]
              dsimp only at h2 ⊢
              rw [h2, h1]
              simp only [Bool.or_eq_true, Bool.and_eq_true, decide_eq_true_eq,
                Bool.false_or]
              tauto

/-- C1 counterexample: an OK iteration that leaves a byte in the write ring
(2 bytes total, 1 linear because of wrap-around, and the TLS write succeeds
for that byte) while no want-write was classified and no
didnt-finish-write was observed: the final mask carries no POLLOUT even
though the write ring is non-empty, during and after the iteration. -/
theorem C1_pollout_counterexample :
    (mqtt_wss_service idleClient 0 c1Env).ret = SvcRet.okRet ∧
    (mqtt_wss_service idleClient 0 c1Env).writeRemaining = 1 ∧
    (mqtt_wss_service idleClient 0 c1Env).client.sockEvents.pollout = false ∧
    c1Env.sslRead ≠ SSLRes.wantWrite ∧ c1Env.sslWrite ≠ SSLRes.wantWrite ∧
    idleClient.didntFinishWrite = false ∧ c1Env.syncSetsDFW = false := by
  decide

/-- C1 witness: an iteration whose read phase classifies want-write. -/
theorem C1_pollout_arming_witness :
    (mqtt_wss_service idleClient 0 c1wEnv).client.sockEvents.pollout = true ↔
      ((c1wEnv.readInsertSize ≠ 0 ∧ c1wEnv.sslRead = SSLRes.wantWrite) ∨
       (c1wEnv.writeLin ≠ 0 ∧ c1wEnv.sslWrite = SSLRes.wantWrite) ∨
       (idleClient.wsEstablished = true ∧
         (idleClient.didntFinishWrite = true ∨ c1wEnv.syncSetsDFW = true))) :=
  C1_pollout_arming idleClient 0 c1wEnv (by decide) (by decide)

/-- C2 (amended): when mqtt_connected is set, the timeout passed to poll is
the minimum of the caller timeout (negative meaning infinite) and
t_till_next_keepalive_ms, mapped to poll convention (a negative minimum is
passed as -1); when mqtt_connected is clear the caller timeout is passed
unchanged (negative as -1), with no keep-alive clamp; and mqtt_ping is
issued, continuing the iteration past the early return, exactly when the
clamp was taken and poll reported zero events without failing. -/
theorem C2_keepalive_clamp (st : Client) (t : Int) (env : SvcEnv) :
    (st.mqttConnected = true →
      (mqtt_wss_service st t env).pollTimeout =
        (if 0 ≤ spec_effective_timeout t
              (t_till_next_keepalive_ms env.lastSendSec env.keepAliveSec env.nowSec)
         then spec_effective_timeout t
              (t_till_next_keepalive_ms env.lastSendSec env.keepAliveSec env.nowSec)
         else -1)) ∧
    (st.mqttConnected = false →
      (mqtt_wss_service st t env).pollTimeout = (if 0 ≤ t then t else -1)) ∧
    ((mqtt_wss_service st t env).pingSent = true ↔
      (svc_clamp st t env = true ∧ env.pollFail = false ∧
        env.pollReady = false)) ∧
    ((mqtt_wss_service st t env).pingSent = true →
      (mqtt_wss_service st t env).earlyReturn = false) := by
  refine ⟨?_, ?_, ?_, ?_⟩
  · intro hc
    rw [mqtt_wss_service_pollTimeout, svc_effT_eq_spec st t env hc]
  · intro hc
    rw [mqtt_wss_service_pollTimeout]
    have he : svc_effT st t env = t := by
      unfold svc_effT svc_clamp
      rw [hc]
      simp
    rw [he]
  · rw [mqtt_wss_service_pingSent]
    cases h1 : env.pollFail <;> cases h2 : env.pollReady <;>
      cases h3 : svc_clamp st t env <;> simp
  · rw [mqtt_wss_service_pingSent, mqtt_wss_service_earlyReturn]
    cases h1 : env.pollFail <;> cases h2 : env.pollReady <;>
      cases h3 : svc_clamp st t env <;> simp

/-- C2 counterexample: with mqtt_connected clear the clamp is skipped, so a
caller timeout of 1000 ms is passed to poll although the keep-alive would
be due in 500 ms; the minimum demanded by the claim is 500. -/
theorem C2_keepalive_counterexample :
    freshClient.mqttConnected = false ∧
    (mqtt_wss_service freshClient 1000 c2Env).pollTimeout = 1000 ∧
    spec_effective_timeout 1000
      (t_till_next_keepalive_ms c2Env.lastSendSec c2Env.keepAliveSec c2Env.nowSec) = 500 ∧
    ((1000 : Int) ≠ 500) := by
  decide

/-- C2 witness: a connected client with an infinite caller timeout gets the
keep-alive remainder as poll timeout and, with poll reporting zero events,
issues a ping. -/
theorem C2_keepalive_clamp_witness :
    (mqtt_wss_service idleClient (-1) c2Env).pollTimeout =
      (if 0 ≤ spec_effective_timeout (-1)
            (t_till_next_keepalive_ms c2Env.lastSendSec c2Env.keepAliveSec c2Env.nowSec)
       then spec_effective_timeout (-1)
            (t_till_next_keepalive_ms c2Env.lastSendSec c2Env.keepAliveSec c2Env.nowSec)
       else -1) ∧
    (mqtt_wss_service idleClient (-1) c2Env).pingSent = true :=
  ⟨(C2_keepalive_clamp idleClient (-1) c2Env).1 rfl,
   ((C2_keepalive_clamp idleClient (-1) c2Env).2.2.1).mpr (by decide)⟩

/-- C6 (amended): service with timeout 0 and no pending readiness returns 0
immediately through the early return, with a poll timeout of exactly 0,
provided mqtt is not connected or the keep-alive deadline is still in the
future.  (When the keep-alive is already due, the clamped timeout is
negative and poll is called with -1, i.e. blocking.) -/
theorem C6_zero_timeout_nonblocking (st : Client) (env : SvcEnv)
    (h : st.mqttConnected = false ∨
      0 < t_till_next_keepalive_ms env.lastSendSec env.keepAliveSec env.nowSec)
    (hpf : env.pollFail = false) (hpr : env.pollReady = false) :
    (mqtt_wss_service st 0 env).ret = SvcRet.okRet ∧
    (mqtt_wss_service st 0 env).pollTimeout = 0 ∧
    (mqtt_wss_service st 0 env).earlyReturn = true := by
  have hclamp : svc_clamp st 0 env = false := by
    unfold svc_clamp
    rcases h with h | h
    · rw [h]
      rfl
    · have hnot : ¬((0:Int) < 0 ∨
        t_till_next_keepalive_ms env.lastSendSec env.keepAliveSec env.nowSec ≤ 0) := by
        omega
      simp [hnot]
      exact fun _ => h
  unfold svc_clamp at hclamp
  unfold mqtt_wss_service
  dsimp only
  rw [hpf, hpr, hclamp]
  simp

/-- C6 counterexample: timeout 0 and no readiness, but mqtt_connected with
the keep-alive 500 ms overdue: the clamp makes the effective timeout -500
and poll is called with -1, i.e. blocking, contradicting the claim that
the poll timeout is never negative in this situation. -/
theorem C6_zero_timeout_counterexample :
    c6Env.pollFail = false ∧ c6Env.pollReady = false ∧
    (mqtt_wss_service idleClient 0 c6Env).pollTimeout = -1 := by
  decide

/-- C6 witness: a disconnected client with timeout 0 and no readiness. -/
theorem C6_zero_timeout_nonblocking_witness :
    (mqtt_wss_service freshClient 0 c2Env).ret = SvcRet.okRet ∧
    (mqtt_wss_service freshClient 0 c2Env).pollTimeout = 0 ∧
    (mqtt_wss_service freshClient 0 c2Env).earlyReturn = true :=
  C6_zero_timeout_nonblocking freshClient c2Env (Or.inl rfl) rfl rfl

/-- C4 (amended): whenever connect returns, the value is exactly one of
0, -1, -3, 1, 2; it is -1 exactly when mqtt_params is NULL, resolution
fails, the address list is empty or socket creation fails; -3 exactly when
only the TCP connect fails; 1 exactly when only the MQTT CONNECT encoding
fails; and 0 or 2 exactly when every earlier step succeeded, 2 arising
from a non-zero service result in the wait loop before mqtt_connected. -/
theorem C4_connect_return_codes (st : Client) (env : ConnectEnv) (r : Int)
    (st' : Client) (h : mqtt_wss_connect st env = some (r, st')) :
    (r = 0 ∨ r = -1 ∨ r = -3 ∨ r = 1 ∨ r = 2) ∧
    (r = -1 ↔ (env.paramsNull = true ∨ env.resolveOk = false ∨
      env.addrListNonEmpty = false ∨ env.socketOk = false)) ∧
    (r = -3 ↔ (env.paramsNull = false ∧ env.resolveOk = true ∧
      env.addrListNonEmpty = true ∧ env.socketOk = true ∧
      env.tcpConnectOk = false)) ∧
    (r = 1 ↔ (env.paramsNull = false ∧ env.resolveOk = true ∧
      env.addrListNonEmpty = true ∧ env.socketOk = true ∧
      env.tcpConnectOk = true ∧ env.mqttConnectOk = false)) ∧
    ((r = 0 ∨ r = 2) ↔ (env.paramsNull = false ∧ env.resolveOk = true ∧
      env.addrListNonEmpty = true ∧ env.socketOk = true ∧
      env.tcpConnectOk = true ∧ env.mqttConnectOk = true)) := by
  unfold mqtt_wss_connect at h
  split at h
  · simp only [Option.some.injEq, Prod.mk.injEq] at h
    obtain ⟨h1, h2⟩ := h
    subst h1
    simp_all
  · dsimp only at h
    split at h
    · simp only [Option.some.injEq, Prod.mk.injEq] at h
      obtain ⟨h1, h2⟩ := h
      subst h1
      simp_all
    · split at h
      · simp only [Option.some.injEq, Prod.mk.injEq] at h
        obtain ⟨h1, h2⟩ := h
        subst h1
        simp_all
      · split at h
        · simp only [Option.some.injEq, Prod.mk.injEq] at h
          obtain ⟨h1, h2⟩ := h
          subst h1
          simp_all
        · split at h
          · simp only [Option.some.injEq, Prod.mk.injEq] at h
            obtain ⟨h1, h2⟩ := h
            subst h1
            simp_all
          · split at h
            · simp only [Option.some.injEq, Prod.mk.injEq] at h
              obtain ⟨h1, h2⟩ := h
              subst h1
              simp_all
            · have h02 := connect_wait_loop_result _ _ _ _ h
              rcases h02 with h0 | h2r
              · subst h0
                simp_all
              · subst h2r
                simp_all

/-- C4 counterexample: a NULL mqtt_params argument also yields -1 although
resolution, the address list and socket creation are all fine, so -1 is
not tied to those three causes alone. -/
theorem C4_connect_counterexample :
    mqtt_wss_connect freshClient c4Env = some (-1, freshClient) ∧
    c4Env.resolveOk = true ∧ c4Env.addrListNonEmpty = true ∧
    c4Env.socketOk = true := by
  decide

/-- C4 witness: every precheck passes and the single wait-loop iteration
fails in poll, so connect returns 2, one of the five documented codes. -/
theorem C4_connect_return_codes_witness :
    ((2:Int) = 0 ∨ (2:Int) = -1 ∨ (2:Int) = -3 ∨ (2:Int) = 1 ∨ (2:Int) = 2) :=
  (C4_connect_return_codes freshClient c4wEnv 2 freshClient (by decide)).1

end MqttWss

